import Mathlib

/-!
Verification of the crop-decision and configuration-resolution engine of the
profile-processing repository.

JavaScript numbers are modelled as exact rationals (ℚ); `Math.floor` is `Int.floor`;
JS objects holding the configuration are modelled as Lean structures, with the
partial per-request override objects modelled by `Option`-valued fields (an absent
field is `none`, matching the behaviour of object spread with `undefined`).
Unknown top-level override fields, which the config shape does not name, are kept
in an association list `extra`.
-/

/-- Brightness settings group of the processing configuration (config.js). -/
structure BrightnessConfig where
  base : ℚ
  darkImages : ℚ
  mediumDarkImages : ℚ
  brightImages : ℚ
  darkThreshold : ℚ
  mediumThreshold : ℚ
  brightThreshold : ℚ
  final : ℚ
  deriving DecidableEq, Repr

/-- Color settings group (config.js). -/
structure ColorConfig where
  saturation : ℚ
  finalSaturation : ℚ
  hue : ℚ
  deriving DecidableEq, Repr

/-- Contrast settings group (config.js). -/
structure ContrastConfig where
  gamma : ℚ
  linearMultiplier : ℚ
  linearOffset : ℚ
  deriving DecidableEq, Repr

/-- Sharpening settings group (config.js). -/
structure SharpeningConfig where
  sigma : ℚ
  flat : ℚ
  jagged : ℚ
  deriving DecidableEq, Repr

/-- Nested tight-crop detection settings (config.js, cropping.tightCropDetection). -/
structure TightCropDetectionConfig where
  enabled : Bool
  faceToImageRatioThreshold : ℚ
  faceEdgeDistanceThreshold : ℚ
  looseCropSize : ℚ
  skipCropSize : ℚ
  deriving DecidableEq, Repr

/-- Cropping settings group (config.js), with the nested threshold sub-object. -/
structure CroppingConfig where
  faceDetectedSize : ℚ
  fallbackSize : ℚ
  tightCropDetection : TightCropDetectionConfig
  faceVerticalOffset : ℚ
  landscapeThreshold : ℚ
  fallbackLandscapeTop : ℚ
  fallbackPortraitTop : ℚ
  deriving DecidableEq, Repr

/-- Output settings group (config.js). -/
structure OutputConfig where
  quality : ℚ
  compressionLevel : ℚ
  size : ℚ
  deriving DecidableEq, Repr

/-- A fully populated processing configuration: the shape of every preset. -/
structure ProcessingConfig where
  brightness : BrightnessConfig
  color : ColorConfig
  contrast : ContrastConfig
  sharpening : SharpeningConfig
  cropping : CroppingConfig
  output : OutputConfig
  deriving DecidableEq, Repr

/-- The `processingConfig` literal of config.js: the default preset. -/
def processingConfig : ProcessingConfig :=
  { brightness :=
      { base := 1.2, darkImages := 1.16, mediumDarkImages := 1.12, brightImages := 1.05
        darkThreshold := 100, mediumThreshold := 140, brightThreshold := 180, final := 1.01 }
    color := { saturation := 0.85, finalSaturation := 1.04, hue := -8 }
    contrast := { gamma := 1.0, linearMultiplier := 1.07, linearOffset := 1.5 }
    sharpening := { sigma := 0.9, flat := 1.0, jagged := 2.0 }
    cropping :=
      { faceDetectedSize := 0.65, fallbackSize := 0.8
        tightCropDetection :=
          { enabled := true, faceToImageRatioThreshold := 0.03
            faceEdgeDistanceThreshold := 0.20, looseCropSize := 0.95, skipCropSize := 1.0 }
        faceVerticalOffset := 0.1, landscapeThreshold := 1.2
        fallbackLandscapeTop := 0.25, fallbackPortraitTop := 0.2 }
    output := { quality := 95, compressionLevel := 6, size := 1024 } }

/-- The `brighten` preset of config.js (spread of `processingConfig` with
brightness and contrast partially overwritten). -/
def brightenPreset : ProcessingConfig :=
  { processingConfig with
    brightness :=
      { processingConfig.brightness with
        base := 1.20, darkImages := 1.25, mediumDarkImages := 1.18, final := 1.05 }
    contrast := { processingConfig.contrast with gamma := 1.25, linearMultiplier := 1.15 } }

/-- The `subtle` preset of config.js. -/
def subtlePreset : ProcessingConfig :=
  { processingConfig with
    brightness :=
      { processingConfig.brightness with
        base := 1.05, darkImages := 1.08, mediumDarkImages := 1.06, final := 1.0 }
    color := { processingConfig.color with saturation := 1.05, finalSaturation := 1.02 } }

/-- The `vibrant` preset of config.js. -/
def vibrantPreset : ProcessingConfig :=
  { processingConfig with
    brightness := { processingConfig.brightness with base := 1.15 }
    color := { processingConfig.color with saturation := 1.20, finalSaturation := 1.08 }
    contrast := { processingConfig.contrast with gamma := 1.30, linearMultiplier := 1.12 }
    sharpening := { processingConfig.sharpening with sigma := 1.5, jagged := 2.5 } }

/-- The `natural` preset of config.js. -/
def naturalPreset : ProcessingConfig :=
  { processingConfig with
    brightness := { processingConfig.brightness with base := 1.08, final := 1.0 }
    color := { processingConfig.color with saturation := 1.08, finalSaturation := 1.02 }
    contrast := { processingConfig.contrast with gamma := 1.10, linearMultiplier := 1.05 }
    sharpening := { processingConfig.sharpening with sigma := 0.8, jagged := 1.5 } }

/-- The `presets` table of config.js, as an ordered name/config list. -/
def presets : List (String × ProcessingConfig) :=
  [("default", processingConfig), ("brighten", brightenPreset), ("subtle", subtlePreset),
   ("vibrant", vibrantPreset), ("natural", naturalPreset)]

/-- The names published in the `presets` table. -/
def presetNames : List String := ["default", "brighten", "subtle", "vibrant", "natural"]

/-- config.js `getConfig`: `presets[presetName] || presets.default`, for names
whose bracket access does not hit the prototype chain (an own preset key, or
`undefined` for other names). `getConfigJs` below extends this with the
`Object.prototype` property names, where the source returns the truthy inherited
value instead of falling back. -/
def getConfig (presetName : String) : ProcessingConfig :=
  ((presets.lookup presetName).getD processingConfig)

/-- Partial override of the brightness group (each absent field is `none`). -/
structure BrightnessOverride where
  base : Option ℚ := none
  darkImages : Option ℚ := none
  mediumDarkImages : Option ℚ := none
  brightImages : Option ℚ := none
  darkThreshold : Option ℚ := none
  mediumThreshold : Option ℚ := none
  brightThreshold : Option ℚ := none
  final : Option ℚ := none
  deriving DecidableEq, Repr

/-- Partial override of the color group. -/
structure ColorOverride where
  saturation : Option ℚ := none
  finalSaturation : Option ℚ := none
  hue : Option ℚ := none
  deriving DecidableEq, Repr

/-- Partial override of the contrast group. -/
structure ContrastOverride where
  gamma : Option ℚ := none
  linearMultiplier : Option ℚ := none
  linearOffset : Option ℚ := none
  deriving DecidableEq, Repr

/-- Partial override of the sharpening group. -/
structure SharpeningOverride where
  sigma : Option ℚ := none
  flat : Option ℚ := none
  jagged : Option ℚ := none
  deriving DecidableEq, Repr

/-- Partial override of the nested tight-crop detection sub-object. -/
structure TightCropDetectionOverride where
  enabled : Option Bool := none
  faceToImageRatioThreshold : Option ℚ := none
  faceEdgeDistanceThreshold : Option ℚ := none
  looseCropSize : Option ℚ := none
  skipCropSize : Option ℚ := none
  deriving DecidableEq, Repr

/-- Partial override of the cropping group, with its optional nested sub-object. -/
structure CroppingOverride where
  faceDetectedSize : Option ℚ := none
  fallbackSize : Option ℚ := none
  tightCropDetection : Option TightCropDetectionOverride := none
  faceVerticalOffset : Option ℚ := none
  landscapeThreshold : Option ℚ := none
  fallbackLandscapeTop : Option ℚ := none
  fallbackPortraitTop : Option ℚ := none
  deriving DecidableEq, Repr

/-- Partial override of the output group. -/
structure OutputOverride where
  quality : Option ℚ := none
  compressionLevel : Option ℚ := none
  size : Option ℚ := none
  deriving DecidableEq, Repr

/-- A `customSettings` object: optional overrides for each known group, plus any
top-level fields outside the known groups (`extra`, values modelled as numbers). -/
structure ConfigOverride where
  brightness : Option BrightnessOverride := none
  color : Option ColorOverride := none
  contrast : Option ContrastOverride := none
  sharpening : Option SharpeningOverride := none
  cropping : Option CroppingOverride := none
  output : Option OutputOverride := none
  extra : List (String × ℚ) := []
  deriving DecidableEq, Repr

/-- The empty `customSettings` object `{}`. -/
def emptyOverride : ConfigOverride := {}

/-- The configuration `mergeConfig` returns: a fully populated configuration plus
whatever top-level fields the override spread carried through. -/
structure ResolvedConfig where
  brightness : BrightnessConfig
  color : ColorConfig
  contrast : ContrastConfig
  sharpening : SharpeningConfig
  cropping : CroppingConfig
  output : OutputConfig
  extra : List (String × ℚ)
  deriving DecidableEq, Repr

/-- View a fully populated configuration as a resolved configuration with no
extra top-level fields. -/
def ProcessingConfig.toResolved (c : ProcessingConfig) : ResolvedConfig :=
  { brightness := c.brightness, color := c.color, contrast := c.contrast
    sharpening := c.sharpening, cropping := c.cropping, output := c.output, extra := [] }

/-- `{ ...base.brightness, ...customSettings.brightness }`: each field present in the
override replaces the base field, absent fields keep the base value. -/
def mergeBrightness (b : BrightnessConfig) (o : Option BrightnessOverride) : BrightnessConfig :=
  { base := ((o.bind (·.base)).getD b.base)
    darkImages := ((o.bind (·.darkImages)).getD b.darkImages)
    mediumDarkImages := ((o.bind (·.mediumDarkImages)).getD b.mediumDarkImages)
    brightImages := ((o.bind (·.brightImages)).getD b.brightImages)
    darkThreshold := ((o.bind (·.darkThreshold)).getD b.darkThreshold)
    mediumThreshold := ((o.bind (·.mediumThreshold)).getD b.mediumThreshold)
    brightThreshold := ((o.bind (·.brightThreshold)).getD b.brightThreshold)
    final := ((o.bind (·.final)).getD b.final) }

/-- `{ ...base.color, ...customSettings.color }`. -/
def mergeColor (b : ColorConfig) (o : Option ColorOverride) : ColorConfig :=
  { saturation := ((o.bind (·.saturation)).getD b.saturation)
    finalSaturation := ((o.bind (·.finalSaturation)).getD b.finalSaturation)
    hue := ((o.bind (·.hue)).getD b.hue) }

/-- `{ ...base.contrast, ...customSettings.contrast }`. -/
def mergeContrast (b : ContrastConfig) (o : Option ContrastOverride) : ContrastConfig :=
  { gamma := ((o.bind (·.gamma)).getD b.gamma)
    linearMultiplier := ((o.bind (·.linearMultiplier)).getD b.linearMultiplier)
    linearOffset := ((o.bind (·.linearOffset)).getD b.linearOffset) }

/-- `{ ...base.sharpening, ...customSettings.sharpening }`. -/
def mergeSharpening (b : SharpeningConfig) (o : Option SharpeningOverride) : SharpeningConfig :=
  { sigma := ((o.bind (·.sigma)).getD b.sigma)
    flat := ((o.bind (·.flat)).getD b.flat)
    jagged := ((o.bind (·.jagged)).getD b.jagged) }

/-- `{ ...base.cropping.tightCropDetection, ...customSettings.cropping?.tightCropDetection }`:
the second-level deep merge of the nested threshold sub-object. -/
def mergeTightCropDetection (b : TightCropDetectionConfig)
    (o : Option TightCropDetectionOverride) : TightCropDetectionConfig :=
  { enabled := ((o.bind (·.enabled)).getD b.enabled)
    faceToImageRatioThreshold :=
      ((o.bind (·.faceToImageRatioThreshold)).getD b.faceToImageRatioThreshold)
    faceEdgeDistanceThreshold :=
      ((o.bind (·.faceEdgeDistanceThreshold)).getD b.faceEdgeDistanceThreshold)
    looseCropSize := ((o.bind (·.looseCropSize)).getD b.looseCropSize)
    skipCropSize := ((o.bind (·.skipCropSize)).getD b.skipCropSize) }

/-- `{ ...base.cropping, ...customSettings.cropping, tightCropDetection: {...} }`:
a one-level merge of the cropping group whose `tightCropDetection` property is then
set to the deep-merged sub-object. -/
def mergeCropping (b : CroppingConfig) (o : Option CroppingOverride) : CroppingConfig :=
  { faceDetectedSize := ((o.bind (·.faceDetectedSize)).getD b.faceDetectedSize)
    fallbackSize := ((o.bind (·.fallbackSize)).getD b.fallbackSize)
    tightCropDetection :=
      mergeTightCropDetection b.tightCropDetection (o.bind (·.tightCropDetection))
    faceVerticalOffset := ((o.bind (·.faceVerticalOffset)).getD b.faceVerticalOffset)
    landscapeThreshold := ((o.bind (·.landscapeThreshold)).getD b.landscapeThreshold)
    fallbackLandscapeTop := ((o.bind (·.fallbackLandscapeTop)).getD b.fallbackLandscapeTop)
    fallbackPortraitTop := ((o.bind (·.fallbackPortraitTop)).getD b.fallbackPortraitTop) }

/-- `{ ...base.output, ...customSettings.output }`. -/
def mergeOutput (b : OutputConfig) (o : Option OutputOverride) : OutputConfig :=
  { quality := ((o.bind (·.quality)).getD b.quality)
    compressionLevel := ((o.bind (·.compressionLevel)).getD b.compressionLevel)
    size := ((o.bind (·.size)).getD b.size) }

/-- config.js `mergeConfig`: resolves `presets[basePreset] || presets.default` and
builds `{ ...base, ...customSettings, brightness: {...}, color: {...}, contrast: {...},
sharpening: {...}, cropping: {..., tightCropDetection: {...}}, output: {...} }`.
The preset has only the known groups, so the top-level spread of `customSettings`
contributes exactly its fields outside the known groups (`extra`); every known group
is then replaced by its one-level (cropping: two-level) merge. An absent `basePreset`
argument defaults to `"default"`. This models resolution for base-preset names whose
bracket access yields an own key or `undefined`; `mergeConfigJs` below extends it
with the prototype-chain case, where the source throws instead of merging. -/
def mergeConfig (basePreset : Option String) (customSettings : ConfigOverride) :
    ResolvedConfig :=
  let nm := basePreset.getD "default"
  let base := ((presets.lookup nm).getD processingConfig)
  { brightness := mergeBrightness base.brightness customSettings.brightness
    color := mergeColor base.color customSettings.color
    contrast := mergeContrast base.contrast customSettings.contrast
    sharpening := mergeSharpening base.sharpening customSettings.sharpening
    cropping := mergeCropping base.cropping customSettings.cropping
    output := mergeOutput base.output customSettings.output
    extra := customSettings.extra }

/-- A detected face bounding box (face-api box: position, size; origin top-left). -/
structure FaceBox where
  x : ℚ
  y : ℚ
  width : ℚ
  height : ℚ
  deriving DecidableEq, Repr

/-- face-api derived box area: `width * height`. -/
def FaceBox.area (b : FaceBox) : ℚ := b.width * b.height

/-- The face center the processor computes from the retained box:
`(box.x + box.width / 2, box.y + box.height / 2)`. -/
def FaceBox.center (b : FaceBox) : ℚ × ℚ := (b.x + b.width / 2, b.y + b.height / 2)

/-- image-processor.js face selection over a non-empty detection list:
`detections.reduce((prev, current) => (prev.box.area > current.box.area) ? prev : current)`.
`reduce` without an initial value starts from the first element. -/
def largestFace (hd : FaceBox) (tl : List FaceBox) : FaceBox :=
  tl.foldl (fun prev current => if prev.area > current.area then prev else current) hd

/-- A crop rectangle in source-image pixel space. -/
structure CropRegion where
  left : ℤ
  top : ℤ
  width : ℤ
  height : ℤ
  deriving DecidableEq, Repr

/-- The boundary post-processing of `smartCropImage` (applied on every path):
`left = Math.max(0, Math.min(left, width - cropWidth))`,
`top = Math.max(0, Math.min(top, height - cropHeight))`,
`actualCropWidth = Math.min(cropWidth, width - left)`,
`actualCropHeight = Math.min(cropHeight, height - top)`. -/
def clampCrop (w h cropW cropH left0 top0 : ℤ) : CropRegion :=
  let left := max 0 (min left0 (w - cropW))
  let top := max 0 (min top0 (h - cropH))
  { left := left, top := top
    width := min cropW (w - left), height := min cropH (h - top) }

/-- The crop side length `smartCropImage` chooses:
`Math.floor(Math.min(width, height) * config.cropping.faceDetectedSize)` when a face
center was found, `Math.floor(Math.min(width, height) * config.cropping.fallbackSize)`
otherwise (both crop dimensions equal this square size). -/
def smartCropSide (hasFace : Bool) (w h : ℤ) (config : ProcessingConfig) : ℤ :=
  if hasFace then ⌊((min w h : ℤ) : ℚ) * config.cropping.faceDetectedSize⌋
  else ⌊((min w h : ℤ) : ℚ) * config.cropping.fallbackSize⌋

/-- The crop-region planning portion of image-processor.js `smartCropImage`
(lines 171-213): chooses the square crop size, positions it (centered on the face
center with the vertical offset applied, or by the orientation heuristic when no
face was found), then clamps to the image boundaries. -/
def smartCropRegion (faceCenter : Option (ℚ × ℚ)) (w h : ℤ) (config : ProcessingConfig) :
    CropRegion :=
  let s := smartCropSide faceCenter.isSome w h config
  match faceCenter with
  | some fc =>
      let left0 := ⌊fc.1 - (s : ℚ) / 2⌋
      let top1 := ⌊fc.2 - (s : ℚ) / 2⌋
      let top0 := ⌊(top1 : ℚ) + (s : ℚ) * config.cropping.faceVerticalOffset⌋
      clampCrop w h s s left0 top0
  | none =>
      let left0 := ⌊((w - s : ℤ) : ℚ) / 2⌋
      let top0 :=
        if (w : ℚ) / (h : ℚ) > config.cropping.landscapeThreshold then
          ⌊(h : ℚ) * config.cropping.fallbackLandscapeTop⌋
        else
          ⌊(h : ℚ) * config.cropping.fallbackPortraitTop⌋
      clampCrop w h s s left0 top0

/-- The adaptive brightness selection of image-processor.js `colorCorrectForAvatars`
(lines 242-250): starts from `base` and reassigns through the if/else-if chain
dark, medium-dark, bright, in that order. -/
def brightnessAdjustment (avgLuminance : ℚ) (b : BrightnessConfig) : ℚ :=
  if avgLuminance < b.darkThreshold then b.darkImages
  else if avgLuminance < b.mediumThreshold then b.mediumDarkImages
  else if avgLuminance > b.brightThreshold then b.brightImages
  else b.base

/-- The tight-crop verdict: face-to-image ratio, minimum normalized edge distance,
and the tight classification. -/
structure TightVerdict where
  faceRatio : ℚ
  minEdgeDistance : ℚ
  isTight : Bool
  deriving DecidableEq, Repr

/-- Modelled from the spec: the Face Geometry Analyzer of §4.2 is absent from `src/`
(only its configuration in config.js and its documentation in TIGHT-CROP-DETECTION.md
are present). `faceRatio = area / (width × height)`; edge distances are the face
center coordinates normalized by the image dimensions (left, right = 1 − left,
top, bottom = 1 − top); `isTight = enabled AND (faceRatio > faceToImageRatioThreshold
OR minEdgeDistance < faceEdgeDistanceThreshold)`. -/
def analyzeFace (box : FaceBox) (w h : ℤ) (tcd : TightCropDetectionConfig) : TightVerdict :=
  let faceRatio := box.area / ((w : ℚ) * (h : ℚ))
  let c := box.center
  let dLeft := c.1 / (w : ℚ)
  let dRight := 1 - dLeft
  let dTop := c.2 / (h : ℚ)
  let dBottom := 1 - dTop
  let minEdge := min (min dLeft dRight) (min dTop dBottom)
  { faceRatio := faceRatio
    minEdgeDistance := minEdge
    isTight := tcd.enabled &&
      (decide (faceRatio > tcd.faceToImageRatioThreshold) ||
       decide (minEdge < tcd.faceEdgeDistanceThreshold)) }

/-- Modelled from the spec: the Crop Region Planner of §4.3 with the tight-crop
branch, which is absent from `src/` (the `smartCropImage` variants under `src/` have
only the face and no-face branches). Branch 1 (face present, verdict tight): side
length `Math.floor(Math.min(width, height) * looseCropSize)`, centered on the face
center, no vertical offset. Branch 2 (face present, not tight) and branch 3 (no
face) follow the `smartCropImage` code, as does the boundary clamping. -/
def planCropSpec (face : Option FaceBox) (w h : ℤ) (config : ProcessingConfig) :
    CropRegion :=
  match face with
  | some box =>
      let verdict := analyzeFace box w h config.cropping.tightCropDetection
      let fc := box.center
      if verdict.isTight then
        let s := ⌊((min w h : ℤ) : ℚ) * config.cropping.tightCropDetection.looseCropSize⌋
        clampCrop w h s s (⌊fc.1 - (s : ℚ) / 2⌋) (⌊fc.2 - (s : ℚ) / 2⌋)
      else
        smartCropRegion (some fc) w h config
  | none => smartCropRegion none w h config

/-- Replace only the `faceVerticalOffset` field of a configuration. -/
def setVerticalOffset (config : ProcessingConfig) (v : ℚ) : ProcessingConfig :=
  { config with cropping := { config.cropping with faceVerticalOffset := v } }

/-- A JavaScript value in the heap model used for the frame-effect claim:
a primitive number or boolean, or a reference to a heap object. -/
inductive HVal where
  | num (q : ℚ)
  | boolean (b : Bool)
  | ref (r : Nat)
  deriving DecidableEq, Repr

/-- A JavaScript object: an ordered own-property list. -/
abbrev HObj := List (String × HVal)

/-- The object heap: objects addressed by allocation index. -/
abbrev Heap := List HObj

/-- Own-property lookup. -/
def hlookup : HObj → String → Option HVal
  | [], _ => none
  | (k, v) :: rest, key => if k = key then some v else hlookup rest key

/-- JavaScript object-literal spread `{ ...a, ...b }`: a's keys stay in their
positions (taking b's value when b also has the key); b's new keys are appended
in order. -/
def spread2 (a b : HObj) : HObj :=
  a.map (fun p => (p.1, (hlookup b p.1).getD p.2)) ++
    b.filter (fun p => (hlookup a p.1).isNone)

/-- Defining a property after a spread in an object literal: an existing key keeps
its position with the new value, a new key is appended. -/
def setField (o : HObj) (k : String) (v : HVal) : HObj :=
  if (hlookup o k).isNone then o ++ [(k, v)]
  else o.map (fun p => if p.1 = k then (k, v) else p)

/-- Dereference an optional value to the object it points at; a missing or
non-reference value spreads as the empty object (JS spread of `undefined`). -/
def getObj (h : Heap) (v : Option HVal) : HObj :=
  match v with
  | some (.ref r) => h.getD r []
  | _ => []

/-- Allocate a fresh object, returning the extended heap and its reference. -/
def alloc (h : Heap) (o : HObj) : Heap × Nat := (h ++ [o], h.length)

/-- config.js `mergeConfig` in the heap model: reads the preset object (`baseRef`)
and the override object (`csRef`) and builds the merged configuration purely by
allocating fresh objects — one per merged group, one for the deep-merged
`tightCropDetection` sub-object, and the top-level object; no existing heap cell is
written. Returns the heap after the call and the reference to the result. -/
def mergeConfigHeap (h : Heap) (baseRef csRef : Nat) : Heap × Nat :=
  let base := h.getD baseRef []
  let cs := h.getD csRef []
  let brObj := spread2 (getObj h (hlookup base "brightness")) (getObj h (hlookup cs "brightness"))
  let colObj := spread2 (getObj h (hlookup base "color")) (getObj h (hlookup cs "color"))
  let conObj := spread2 (getObj h (hlookup base "contrast")) (getObj h (hlookup cs "contrast"))
  let shObj := spread2 (getObj h (hlookup base "sharpening")) (getObj h (hlookup cs "sharpening"))
  let baseCrop := getObj h (hlookup base "cropping")
  let csCrop := getObj h (hlookup cs "cropping")
  let tcdObj := spread2 (getObj h (hlookup baseCrop "tightCropDetection"))
    (getObj h (hlookup csCrop "tightCropDetection"))
  let outObj := spread2 (getObj h (hlookup base "output")) (getObj h (hlookup cs "output"))
  let p1 := alloc h brObj
  let p2 := alloc p1.1 colObj
  let p3 := alloc p2.1 conObj
  let p4 := alloc p3.1 shObj
  let p5 := alloc p4.1 tcdObj
  let cropObj := setField (spread2 baseCrop csCrop) "tightCropDetection" (.ref p5.2)
  let p6 := alloc p5.1 cropObj
  let p7 := alloc p6.1 outObj
  let topObj :=
    setField (setField (setField (setField (setField (setField (spread2 base cs)
      "brightness" (.ref p1.2)) "color" (.ref p2.2)) "contrast" (.ref p3.2))
      "sharpening" (.ref p4.2)) "cropping" (.ref p6.2)) "output" (.ref p7.2)
  alloc p7.1 topObj

/-- Scenario D override: `{cropping:{tightCropDetection:{looseCropSize:0.98}}}`. -/
def scenarioDOverride : ConfigOverride :=
  { cropping := some { tightCropDetection := some { looseCropSize := some 0.98 } } }

/-- An override carrying one top-level field outside the known config groups. -/
def unknownFieldOverride : ConfigOverride := { extra := [("unknownField", 42)] }

/-- An override touching only the brightness group (cropping entirely absent). -/
def brightnessOnlyOverride : ConfigOverride := { brightness := some { base := some 1.3 } }

/-- A pathological brightness configuration with `darkThreshold > brightThreshold`
(the default multipliers and the default medium/bright thresholds). -/
def pathologicalBrightness : BrightnessConfig :=
  { processingConfig.brightness with darkThreshold := 200 }

/-- Two distinct face boxes with exactly equal areas (2×2 = 4). -/
def tieFaceA : FaceBox := { x := 0, y := 0, width := 2, height := 2 }

/-- The second, later-seen face box of the equal-area pair. -/
def tieFaceB : FaceBox := { x := 1, y := 1, width := 2, height := 2 }

/-- Scenario B face box: `{x:187, y:513, w:327, h:293}` in a 1000×1000 image
(face ratio about 9.58% > 3%, so the verdict is tight). -/
def scenarioBBox : FaceBox := { x := 187, y := 513, width := 327, height := 293 }

/-- A one-object concrete heap used to instantiate the frame theorem. -/
def witnessHeap : Heap := [[("brightness", HVal.num 1)]]

/-- The own property names of `Object.prototype`. Bracket access on a plain object
literal consults the prototype chain, so `presets[name]` finds these even though the
presets table has no such own key, and each yields a truthy value (a built-in
function, or `Object.prototype` itself for `__proto__`). -/
def objectProtoNames : List String :=
  ["constructor", "hasOwnProperty", "isPrototypeOf", "propertyIsEnumerable",
   "toLocaleString", "toString", "valueOf", "__proto__",
   "__defineGetter__", "__defineSetter__", "__lookupGetter__", "__lookupSetter__"]

/-- The value of the JavaScript expression `presets[name]`: an own key of the
presets literal yields its preset; an `Object.prototype` property name yields a
truthy inherited value that is not a configuration; any other name yields
`undefined`. -/
inductive PresetAccess where
  | ownConfig (c : ProcessingConfig)
  | protoValue
  | undef
  deriving DecidableEq, Repr

/-- Evaluates `presets[name]` with JavaScript bracket-access semantics: own keys
first, then the prototype chain. -/
def presetAccess (name : String) : PresetAccess :=
  match presets.lookup name with
  | some c => PresetAccess.ownConfig c
  | none => if name ∈ objectProtoNames then PresetAccess.protoValue else PresetAccess.undef

/-- config.js `getConfig` under full bracket-access semantics: an own preset key
returns its preset, an absent non-prototype name falls back to the default preset,
but an `Object.prototype` property name makes `presets[presetName]` truthy, so the
`||` fallback does not trigger and the inherited non-config value is returned
(`none` here). `getConfig` above is the restriction to the non-prototype cases. -/
def getConfigJs (presetName : String) : Option ProcessingConfig :=
  match presetAccess presetName with
  | PresetAccess.ownConfig c => some c
  | PresetAccess.protoValue => none
  | PresetAccess.undef => some processingConfig

/-- config.js `mergeConfig` under full bracket-access semantics. When `basePreset`
is an own key or an absent non-prototype name, `presets[basePreset] || presets.default`
yields a preset object and the merge proceeds as in `mergeConfig`. When `basePreset`
is an `Object.prototype` property name, the access yields a truthy inherited value,
the `||` fallback does not trigger, and the merge throws a TypeError while building
the cropping group: `base.cropping` is `undefined`, so reading
`base.cropping.tightCropDetection` fails before any group is assembled. -/
def mergeConfigJs (basePreset : Option String) (customSettings : ConfigOverride) :
    Except String ResolvedConfig :=
  let nm := basePreset.getD "default"
  match presetAccess nm with
  | PresetAccess.ownConfig _ => Except.ok (mergeConfig basePreset customSettings)
  | PresetAccess.protoValue =>
      Except.error "TypeError: Cannot read properties of undefined (reading tightCropDetection)"
  | PresetAccess.undef => Except.ok (mergeConfig basePreset customSettings)

/-- C3: merging the scenario D override onto the default preset leaves
`faceToImageRatioThreshold` and `faceEdgeDistanceThreshold` at the default preset's
values while taking the overridden `looseCropSize`; and in general every
`tightCropDetection` field absent from the override retains the preset's value. -/
theorem mergeConfig_deepMerge_tightCropDetection :
    ((mergeConfig (some "default") scenarioDOverride).cropping.tightCropDetection.faceToImageRatioThreshold =
        processingConfig.cropping.tightCropDetection.faceToImageRatioThreshold ∧
      (mergeConfig (some "default") scenarioDOverride).cropping.tightCropDetection.faceEdgeDistanceThreshold =
        processingConfig.cropping.tightCropDetection.faceEdgeDistanceThreshold ∧
      (mergeConfig (some "default") scenarioDOverride).cropping.tightCropDetection.looseCropSize = 0.98) ∧
    ∀ (nm : Option String) (o : ConfigOverride),
      ((o.cropping.bind (·.tightCropDetection)).bind (·.enabled) = none →
        (mergeConfig nm o).cropping.tightCropDetection.enabled =
          (getConfig (nm.getD "default")).cropping.tightCropDetection.enabled) ∧
      ((o.cropping.bind (·.tightCropDetection)).bind (·.faceToImageRatioThreshold) = none →
        (mergeConfig nm o).cropping.tightCropDetection.faceToImageRatioThreshold =
          (getConfig (nm.getD "default")).cropping.tightCropDetection.faceToImageRatioThreshold) ∧
      ((o.cropping.bind (·.tightCropDetection)).bind (·.faceEdgeDistanceThreshold) = none →
        (mergeConfig nm o).cropping.tightCropDetection.faceEdgeDistanceThreshold =
          (getConfig (nm.getD "default")).cropping.tightCropDetection.faceEdgeDistanceThreshold) ∧
      ((o.cropping.bind (·.tightCropDetection)).bind (·.looseCropSize) = none →
        (mergeConfig nm o).cropping.tightCropDetection.looseCropSize =
          (getConfig (nm.getD "default")).cropping.tightCropDetection.looseCropSize) ∧
      ((o.cropping.bind (·.tightCropDetection)).bind (·.skipCropSize) = none →
        (mergeConfig nm o).cropping.tightCropDetection.skipCropSize =
          (getConfig (nm.getD "default")).cropping.tightCropDetection.skipCropSize) := by
  constructor
  · refine ⟨rfl, rfl, rfl⟩
  · intro nm o
    refine ⟨?_, ?_, ?_, ?_, ?_⟩ <;>
      · intro hnone
        simp [mergeConfig, mergeCropping, mergeTightCropDetection, getConfig, hnone]

/-- C3 witness: at the default preset and the scenario D override, `skipCropSize`
is absent from the override, so its resolved value is the preset's. -/
theorem mergeConfig_deepMerge_tightCropDetection_witness :
    (mergeConfig (some "default") scenarioDOverride).cropping.tightCropDetection.skipCropSize =
      (getConfig ((some "default").getD "default")).cropping.tightCropDetection.skipCropSize :=
  ((mergeConfig_deepMerge_tightCropDetection.2 (some "default") scenarioDOverride).2.2.2.2) (by rfl)

/-- C6 counterexample: a top-level override field outside the known groups is not
ignored — it appears in the resolved configuration. -/
theorem mergeConfig_unknownField_appears :
    (mergeConfig (some "default") unknownFieldOverride).extra.lookup "unknownField" = some 42 ∧
    (mergeConfig (some "default") unknownFieldOverride).extra ≠ [] := by
  constructor
  · rfl
  · simp [mergeConfig, unknownFieldOverride]

/-- C6 amended: the top-level spread of `customSettings` copies every field outside
the known groups through into the resolved configuration unchanged (they are
preserved, not dropped). -/
theorem mergeConfig_extra_passthrough :
    ∀ (nm : Option String) (o : ConfigOverride), (mergeConfig nm o).extra = o.extra := by
  intro nm o
  rfl

/-- C7: config resolution is pure — merging the empty override returns exactly the
stored preset (field for field, with no extra top-level fields), and resolving the
same inputs twice yields identical results. -/
theorem mergeConfig_empty_override_pure :
    (∀ nm : String, mergeConfig (some nm) emptyOverride = (getConfig nm).toResolved) ∧
    ∀ (nm : Option String) (o : ConfigOverride), mergeConfig nm o = mergeConfig nm o := by
  constructor
  · intro nm
    rfl
  · intro nm o
    rfl

/-- C8 counterexample: the unpublished name "constructor" is an `Object.prototype`
property, so `presets["constructor"]` is a truthy inherited value: resolution
throws a TypeError instead of falling back, and differs from resolving "default". -/
theorem mergeConfigJs_proto_name_counterexample :
    "constructor" ∉ presetNames ∧
    mergeConfigJs (some "constructor") emptyOverride =
      Except.error
        "TypeError: Cannot read properties of undefined (reading tightCropDetection)" ∧
    mergeConfigJs (some "constructor") emptyOverride ≠
      mergeConfigJs (some "default") emptyOverride := by
  refine ⟨by decide, rfl, ?_⟩
  have e1 : mergeConfigJs (some "constructor") emptyOverride =
      Except.error
        "TypeError: Cannot read properties of undefined (reading tightCropDetection)" := rfl
  have e2 : mergeConfigJs (some "default") emptyOverride =
      Except.ok (mergeConfig (some "default") emptyOverride) := rfl
  rw [e1, e2]
  exact fun hcontra => Except.noConfusion hcontra

/-- C8 amended: preset-name fallback under full bracket-access semantics — an
absent name, and every unknown name that is not an `Object.prototype` property,
resolves exactly like "default" for every override; a name that is an
`Object.prototype` property makes resolution throw a TypeError instead of falling
back to the default preset. -/
theorem mergeConfigJs_unknown_preset_fallback :
    (∀ nm : String, nm ∉ presetNames → nm ∉ objectProtoNames →
      ∀ o : ConfigOverride, mergeConfigJs (some nm) o = mergeConfigJs (some "default") o) ∧
    (∀ o : ConfigOverride, mergeConfigJs none o = mergeConfigJs (some "default") o) ∧
    (∀ nm : String, nm ∈ objectProtoNames → ∀ o : ConfigOverride,
      mergeConfigJs (some nm) o =
        Except.error
          "TypeError: Cannot read properties of undefined (reading tightCropDetection)") := by
  refine ⟨?_, ?_, ?_⟩
  · intro nm hnm hp o
    simp only [presetNames, List.mem_cons, List.not_mem_nil, or_false, not_or] at hnm
    obtain ⟨h1, h2, h3, h4, h5⟩ := hnm
    have e : presets.lookup nm = none := by
      simp [presets, List.lookup, beq_false_of_ne h1, beq_false_of_ne h2,
        beq_false_of_ne h3, beq_false_of_ne h4, beq_false_of_ne h5]
    have e2 : presets.lookup "default" = some processingConfig := rfl
    have ea : presetAccess nm = PresetAccess.undef := by
      simp [presetAccess, e, hp]
    have eb : presetAccess "default" = PresetAccess.ownConfig processingConfig := by
      simp [presetAccess, e2]
    simp only [mergeConfigJs, Option.getD_some, ea, eb]
    simp only [mergeConfig, Option.getD_some, e, e2, Option.getD_none]
  · intro o
    rfl
  · intro nm hp o
    simp only [objectProtoNames, List.mem_cons, List.not_mem_nil, or_false] at hp
    rcases hp with h | h | h | h | h | h | h | h | h | h | h | h <;> rw [h] <;> rfl

/-- C8 witness: the unpublished, non-prototype name "bogus" resolves like
"default". -/
theorem mergeConfigJs_unknown_preset_fallback_witness :
    mergeConfigJs (some "bogus") emptyOverride = mergeConfigJs (some "default") emptyOverride :=
  mergeConfigJs_unknown_preset_fallback.1 "bogus" (by decide) (by decide) emptyOverride

/-- C9: resolution is total on partial overrides — when the cropping group is
entirely absent from the override, the resolved cropping group (its nested
`tightCropDetection` sub-object included) is exactly the preset's. -/
theorem mergeConfig_absent_cropping_total :
    ∀ (nm : Option String) (o : ConfigOverride), o.cropping = none →
      (mergeConfig nm o).cropping.tightCropDetection =
        (getConfig (nm.getD "default")).cropping.tightCropDetection ∧
      (mergeConfig nm o).cropping = (getConfig (nm.getD "default")).cropping := by
  intro nm o hc
  constructor <;>
    simp [mergeConfig, mergeCropping, mergeTightCropDetection, getConfig, hc]

/-- C9 witness: a brightness-only override (no cropping group) retains the default
preset's whole cropping group. -/
theorem mergeConfig_absent_cropping_total_witness :
    (mergeConfig (some "default") brightnessOnlyOverride).cropping.tightCropDetection =
      (getConfig ((some "default").getD "default")).cropping.tightCropDetection ∧
    (mergeConfig (some "default") brightnessOnlyOverride).cropping =
      (getConfig ((some "default").getD "default")).cropping :=
  mergeConfig_absent_cropping_total (some "default") brightnessOnlyOverride (by rfl)

/-- C10: `mergeConfig` never mutates the stored preset table — in the heap model it
only allocates: every object that existed before the call (the preset and all of its
nested group objects included) is unchanged afterwards, and the returned reference
is fresh (outside the old heap). -/
theorem mergeConfigHeap_frame :
    ∀ (h : Heap) (baseRef csRef i : Nat), i < h.length →
      (mergeConfigHeap h baseRef csRef).1.getD i [] = h.getD i [] ∧
      h.length ≤ (mergeConfigHeap h baseRef csRef).2 := by
  intro h baseRef csRef i hi
  constructor
  · simp only [mergeConfigHeap, alloc, List.append_assoc]
    exact List.getD_append _ _ _ _ hi
  · simp only [mergeConfigHeap, alloc, List.length_append]
    omega

/-- C10 witness: at a concrete one-object heap, the stored object is unchanged and
the result reference points past it. -/
theorem mergeConfigHeap_frame_witness :
    (mergeConfigHeap witnessHeap 0 0).1.getD 0 [] = witnessHeap.getD 0 [] ∧
    witnessHeap.length ≤ (mergeConfigHeap witnessHeap 0 0).2 :=
  mergeConfigHeap_frame witnessHeap 0 0 0 (by simp [witnessHeap])

/-- C4 counterexample: with a pathological configuration (darkThreshold 200 above
mediumThreshold 140 and brightThreshold 180), the classifier at `darkThreshold`
returns the bright-images multiplier, not the medium-dark one the claim requires
for every brightness config. -/
theorem brightnessAdjustment_pathological_counterexample :
    brightnessAdjustment pathologicalBrightness.darkThreshold pathologicalBrightness =
      pathologicalBrightness.brightImages ∧
    pathologicalBrightness.brightImages ≠ pathologicalBrightness.mediumDarkImages := by
  constructor
  · norm_num [brightnessAdjustment, pathologicalBrightness, processingConfig]
  · norm_num [pathologicalBrightness, processingConfig]

/-- C4 amended: for every brightness config whose thresholds are ordered
(darkThreshold < mediumThreshold ≤ brightThreshold, as in all shipped presets),
the classifier checks dark, medium-dark, bright, base in that order, and the four
boundary equations hold: a tie at a threshold goes to the darker bucket except at
the upper boundary, which falls through to base. -/
theorem brightnessAdjustment_boundaries (b : BrightnessConfig)
    (h1 : b.darkThreshold < b.mediumThreshold) (h2 : b.mediumThreshold ≤ b.brightThreshold) :
    brightnessAdjustment (b.darkThreshold - 1) b = b.darkImages ∧
    brightnessAdjustment b.darkThreshold b = b.mediumDarkImages ∧
    brightnessAdjustment (b.brightThreshold + 1) b = b.brightImages ∧
    brightnessAdjustment b.mediumThreshold b = b.base := by
  unfold brightnessAdjustment
  refine ⟨?_, ?_, ?_, ?_⟩ <;> split_ifs <;> first | rfl | linarith

/-- C4 witness: the boundary equations at the default preset's brightness config. -/
theorem brightnessAdjustment_boundaries_witness :
    brightnessAdjustment (processingConfig.brightness.darkThreshold - 1)
        processingConfig.brightness = processingConfig.brightness.darkImages ∧
    brightnessAdjustment processingConfig.brightness.darkThreshold
        processingConfig.brightness = processingConfig.brightness.mediumDarkImages ∧
    brightnessAdjustment (processingConfig.brightness.brightThreshold + 1)
        processingConfig.brightness = processingConfig.brightness.brightImages ∧
    brightnessAdjustment processingConfig.brightness.mediumThreshold
        processingConfig.brightness = processingConfig.brightness.base :=
  brightnessAdjustment_boundaries processingConfig.brightness
    (by norm_num [processingConfig]) (by norm_num [processingConfig])

/-- C5 counterexample: two distinct boxes of exactly equal area — the reduce keeps
the second (later-seen) box, not the first-seen one the claim requires. -/
theorem largestFace_tie_counterexample :
    tieFaceA.area = tieFaceB.area ∧
    largestFace tieFaceA [tieFaceB] = tieFaceB ∧
    tieFaceB ≠ tieFaceA := by
  refine ⟨by norm_num [tieFaceA, tieFaceB, FaceBox.area], ?_, ?_⟩
  · norm_num [largestFace, tieFaceA, tieFaceB, FaceBox.area]
  · norm_num [tieFaceA, tieFaceB]

/-- C5 amended: over every non-empty detection list the reduce retains a box of
maximal area, and among equal maximal areas the last-seen box wins: the retained
box occurs in the list and every box after that occurrence has strictly smaller
area. -/
theorem largestFace_max_lastTie (hd : FaceBox) (tl : List FaceBox) :
    (∀ b ∈ hd :: tl, b.area ≤ (largestFace hd tl).area) ∧
    ∃ l1 l2, hd :: tl = l1 ++ (largestFace hd tl) :: l2 ∧
      ∀ b ∈ l2, b.area < (largestFace hd tl).area := by
  induction tl generalizing hd with
  | nil =>
      refine ⟨?_, [], [], rfl, ?_⟩
      · intro b hb
        rcases List.mem_cons.mp hb with rfl | hb
        · exact le_refl _
        · exact absurd hb (List.not_mem_nil b)
      · intro b hb
        exact absurd hb (List.not_mem_nil b)
  | cons c tl ih =>
      have step : largestFace hd (c :: tl) =
          largestFace (if hd.area > c.area then hd else c) tl := rfl
      by_cases hcmp : hd.area > c.area
      · rw [step, if_pos hcmp]
        obtain ⟨hmax, l1, l2, heq, hlt⟩ := ih hd
        refine ⟨?_, ?_⟩
        · intro b hb
          rcases List.mem_cons.mp hb with hb1 | hb
          · rw [hb1]; exact hmax hd (List.mem_cons_self hd tl)
          · rcases List.mem_cons.mp hb with hb2 | hb
            · rw [hb2]
              exact le_trans (le_of_lt hcmp) (hmax hd (List.mem_cons_self hd tl))
            · exact hmax b (List.mem_cons_of_mem hd hb)
        · cases l1 with
          | nil =>
              simp only [List.nil_append] at heq
              have e1 : hd = largestFace hd tl := (List.cons.injEq _ _ _ _).mp heq |>.1
              have e2 : tl = l2 := (List.cons.injEq _ _ _ _).mp heq |>.2
              refine ⟨[], c :: tl, by rw [List.nil_append, ← e1], ?_⟩
              intro b hb
              rcases List.mem_cons.mp hb with hb1 | hb
              · rw [hb1, ← e1]; exact hcmp
              · exact hlt b (e2 ▸ hb)
          | cons d l1 =>
              simp only [List.cons_append] at heq
              have e2 : tl = l1 ++ largestFace hd tl :: l2 :=
                (List.cons.injEq _ _ _ _).mp heq |>.2
              exact ⟨hd :: c :: l1, l2, by rw [List.cons_append, List.cons_append, ← e2], hlt⟩
      · rw [step, if_neg hcmp]
        push_neg at hcmp
        obtain ⟨hmax, l1, l2, heq, hlt⟩ := ih c
        refine ⟨?_, ?_⟩
        · intro b hb
          rcases List.mem_cons.mp hb with hb1 | hb
          · rw [hb1]; exact le_trans hcmp (hmax c (List.mem_cons_self c tl))
          · rcases List.mem_cons.mp hb with hb2 | hb
            · rw [hb2]; exact hmax c (List.mem_cons_self c tl)
            · exact hmax b (List.mem_cons_of_mem c hb)
        · exact ⟨hd :: l1, l2, by rw [List.cons_append, ← heq], hlt⟩

/-- C5 witness: on a concrete two-box list the retained box dominates both areas. -/
theorem largestFace_max_lastTie_witness :
    FaceBox.area { x := 0, y := 0, width := 1, height := 3 } ≤
      (largestFace { x := 0, y := 0, width := 2, height := 2 }
        [{ x := 0, y := 0, width := 1, height := 3 }]).area :=
  (largestFace_max_lastTie { x := 0, y := 0, width := 2, height := 2 }
      [{ x := 0, y := 0, width := 1, height := 3 }]).1
    { x := 0, y := 0, width := 1, height := 3 } (by simp)

/-- The boundary clamp always yields nonnegative offsets and a rectangle inside the
image, whatever the nominal position and size. -/
theorem clampCrop_le (w h cw ch l0 t0 : ℤ) :
    0 ≤ (clampCrop w h cw ch l0 t0).left ∧
    0 ≤ (clampCrop w h cw ch l0 t0).top ∧
    (clampCrop w h cw ch l0 t0).left + (clampCrop w h cw ch l0 t0).width ≤ w ∧
    (clampCrop w h cw ch l0 t0).top + (clampCrop w h cw ch l0 t0).height ≤ h := by
  simp only [clampCrop]
  omega

/-- On an image of positive dimensions, the clamped rectangle has positive size
whenever the nominal crop size is at least 1. -/
theorem clampCrop_pos (w h cw ch l0 t0 : ℤ) (hw : 1 ≤ w) (hh : 1 ≤ h)
    (hcw : 1 ≤ cw) (hch : 1 ≤ ch) :
    0 < (clampCrop w h cw ch l0 t0).width ∧ 0 < (clampCrop w h cw ch l0 t0).height := by
  simp only [clampCrop]
  omega

/-- C2 counterexample: on the valid 1×1 image with the default preset and no face,
the planner's crop width is `Math.floor(1 × 0.8) = 0`, so the claimed invariant
`width > 0` fails. -/
theorem smartCrop_zero_width_counterexample :
    (smartCropRegion none 1 1 processingConfig).width = 0 ∧
    ¬ (0 < (smartCropRegion none 1 1 processingConfig).width) := by
  have e : (smartCropRegion none 1 1 processingConfig).width = 0 := by
    norm_num [smartCropRegion, smartCropSide, clampCrop, processingConfig]
  exact ⟨e, by rw [e]; exact lt_irrefl 0⟩

/-- C2 amended: for every valid image (positive dimensions), any face center or
none, and any configuration, the planner's rectangle satisfies `0 ≤ left`,
`0 ≤ top`, `left + width ≤ imageWidth`, `top + height ≤ imageHeight` (the planner
clamps and shrinks instead of failing); `width > 0` and `height > 0` additionally
hold whenever the floored nominal crop side is at least 1. -/
theorem smartCrop_bounds (fc : Option (ℚ × ℚ)) (w h : ℤ) (config : ProcessingConfig)
    (hw : 1 ≤ w) (hh : 1 ≤ h) :
    0 ≤ (smartCropRegion fc w h config).left ∧
    0 ≤ (smartCropRegion fc w h config).top ∧
    (smartCropRegion fc w h config).left + (smartCropRegion fc w h config).width ≤ w ∧
    (smartCropRegion fc w h config).top + (smartCropRegion fc w h config).height ≤ h ∧
    (1 ≤ smartCropSide fc.isSome w h config →
      0 < (smartCropRegion fc w h config).width ∧
      0 < (smartCropRegion fc w h config).height) := by
  obtain ⟨l0, t0, e⟩ : ∃ l0 t0, smartCropRegion fc w h config =
      clampCrop w h (smartCropSide fc.isSome w h config)
        (smartCropSide fc.isSome w h config) l0 t0 := by
    cases fc with
    | none => exact ⟨_, _, rfl⟩
    | some v => exact ⟨_, _, rfl⟩
  rw [e]
  obtain ⟨b1, b2, b3, b4⟩ := clampCrop_le w h (smartCropSide fc.isSome w h config)
    (smartCropSide fc.isSome w h config) l0 t0
  exact ⟨b1, b2, b3, b4, fun hs =>
    clampCrop_pos w h _ _ l0 t0 hw hh hs hs⟩

/-- C2 amended witness: the planner at the 1000×1000 image with a face center at
(430, 430) and the default preset. -/
theorem smartCrop_bounds_witness :
    0 ≤ (smartCropRegion (some (430, 430)) 1000 1000 processingConfig).left ∧
    0 ≤ (smartCropRegion (some (430, 430)) 1000 1000 processingConfig).top ∧
    (smartCropRegion (some (430, 430)) 1000 1000 processingConfig).left +
      (smartCropRegion (some (430, 430)) 1000 1000 processingConfig).width ≤ 1000 ∧
    (smartCropRegion (some (430, 430)) 1000 1000 processingConfig).top +
      (smartCropRegion (some (430, 430)) 1000 1000 processingConfig).height ≤ 1000 ∧
    (1 ≤ smartCropSide (some ((430 : ℚ), (430 : ℚ))).isSome 1000 1000 processingConfig →
      0 < (smartCropRegion (some (430, 430)) 1000 1000 processingConfig).width ∧
      0 < (smartCropRegion (some (430, 430)) 1000 1000 processingConfig).height) :=
  smartCrop_bounds (some (430, 430)) 1000 1000 processingConfig (by norm_num) (by norm_num)

/-- C1: when a face is present and the tight-crop verdict is tight (detection
enabled, and faceRatio above the ratio threshold or minEdgeDistance below the edge
threshold), the planner chooses the square side
`Math.floor(Math.min(width, height) × looseCropSize)`, centers it on the face
center, and applies no vertical offset: the result is independent of
`faceVerticalOffset`. -/
theorem planCropSpec_tight_branch (box : FaceBox) (w h : ℤ) (config : ProcessingConfig)
    (hen : config.cropping.tightCropDetection.enabled = true)
    (hcond : (analyzeFace box w h config.cropping.tightCropDetection).faceRatio >
        config.cropping.tightCropDetection.faceToImageRatioThreshold ∨
      (analyzeFace box w h config.cropping.tightCropDetection).minEdgeDistance <
        config.cropping.tightCropDetection.faceEdgeDistanceThreshold) :
    planCropSpec (some box) w h config =
      clampCrop w h
        (⌊((min w h : ℤ) : ℚ) * config.cropping.tightCropDetection.looseCropSize⌋)
        (⌊((min w h : ℤ) : ℚ) * config.cropping.tightCropDetection.looseCropSize⌋)
        (⌊box.center.1 -
          ((⌊((min w h : ℤ) : ℚ) * config.cropping.tightCropDetection.looseCropSize⌋ : ℤ) : ℚ) / 2⌋)
        (⌊box.center.2 -
          ((⌊((min w h : ℤ) : ℚ) * config.cropping.tightCropDetection.looseCropSize⌋ : ℤ) : ℚ) / 2⌋) ∧
    ∀ v : ℚ, planCropSpec (some box) w h (setVerticalOffset config v) =
      planCropSpec (some box) w h config := by
  have ht : (analyzeFace box w h config.cropping.tightCropDetection).isTight = true := by
    simp only [analyzeFace] at hcond ⊢
    rw [hen]
    rcases hcond with hc | hc <;> simp [hc]
  constructor
  · simp only [planCropSpec, ht, if_true]
  · intro v
    have ht2 : (analyzeFace box w h
        (setVerticalOffset config v).cropping.tightCropDetection).isTight = true := ht
    simp only [planCropSpec, ht, ht2, if_true, setVerticalOffset]

/-- C1 witness: the Scenario B box (187, 513, 327×293) in a 1000×1000 image under
the default preset has a tight verdict, so the planner uses the 950-pixel loose
square centered on the face center, and the vertical offset is ignored. -/
theorem planCropSpec_tight_branch_witness :
    planCropSpec (some scenarioBBox) 1000 1000 processingConfig =
      clampCrop 1000 1000
        (⌊((min 1000 1000 : ℤ) : ℚ) * processingConfig.cropping.tightCropDetection.looseCropSize⌋)
        (⌊((min 1000 1000 : ℤ) : ℚ) * processingConfig.cropping.tightCropDetection.looseCropSize⌋)
        (⌊scenarioBBox.center.1 -
          ((⌊((min 1000 1000 : ℤ) : ℚ) * processingConfig.cropping.tightCropDetection.looseCropSize⌋ : ℤ) : ℚ) / 2⌋)
        (⌊scenarioBBox.center.2 -
          ((⌊((min 1000 1000 : ℤ) : ℚ) * processingConfig.cropping.tightCropDetection.looseCropSize⌋ : ℤ) : ℚ) / 2⌋) ∧
    ∀ v : ℚ, planCropSpec (some scenarioBBox) 1000 1000 (setVerticalOffset processingConfig v) =
      planCropSpec (some scenarioBBox) 1000 1000 processingConfig :=
  planCropSpec_tight_branch scenarioBBox 1000 1000 processingConfig (by rfl)
    (Or.inl (by norm_num [analyzeFace, FaceBox.area, FaceBox.center, scenarioBBox,
      processingConfig]))
